import Mathlib

/-!
# Verification of the PAC-MAN grid simulation core

Shallow embedding of `src/script.js`: the level grid, the flood-fill level
initialization, the movement resolver `move`, the ghost retarget policy, and
the per-tick update sequence, together with theorems settling the frozen
claims about the natural-language specification.

Coordinates are integers (JS numbers used as array indices); a grid is a list
of rows of characters, exactly as the source's `level` (a 2D array of the
characters '0', '1', '2'). All real accesses in the source are guarded by
bounds checks, which we transcribe verbatim; `getCell` returns a placeholder
character out of bounds.
-/

/-- A direction vector, as the source's `entity.dir = {x, y}`. -/
structure Dir where
  x : Int
  y : Int
deriving DecidableEq, Repr

/-- A game entity, as the source's `pacman` / `ghost` objects. -/
structure Entity where
  x : Int
  y : Int
  dir : Dir
deriving DecidableEq, Repr

/-- A level grid: a list of rows of characters ('0' empty, '1' wall, '2' dot),
as the source's `level` after `levelLayout.map(row => row.split(''))`. -/
abbrev Level := List (List Char)

/-- `rows = level.length` (source line 115). -/
def rows (lvl : Level) : Int := lvl.length

/-- `cols = level[0].length` (source line 116). -/
def cols (lvl : Level) : Int := (lvl.headD []).length

/-- Read `level[y][x]`. Every use in the source is preceded by a bounds
check; out of bounds we return a placeholder character. -/
def getCell (lvl : Level) (y x : Int) : Char :=
  (lvl.getD y.toNat []).getD x.toNat '?'

/-- Write `level[y][x] = c` (used for dot placement and dot collection). -/
def setCell (lvl : Level) (y x : Int) (c : Char) : Level :=
  lvl.set y.toNat ((lvl.getD y.toNat []).set x.toNat c)

/-- `canTeleportOnRow(y)` (source lines 125-127): teleportation needs both
edge cells of the row to be non-wall. -/
def canTeleportOnRow (lvl : Level) (y : Int) : Prop :=
  0 ≤ y ∧ y < rows lvl ∧ getCell lvl y 0 ≠ '1' ∧ getCell lvl y (cols lvl - 1) ≠ '1'

instance (lvl : Level) (y : Int) : Decidable (canTeleportOnRow lvl y) :=
  inferInstanceAs (Decidable (0 ≤ y ∧ y < rows lvl ∧
    getCell lvl y 0 ≠ '1' ∧ getCell lvl y (cols lvl - 1) ≠ '1'))

/-- The string template `levelLayout` (source lines 91-107). -/
def levelLayout : List String :=
  [ "1111111111111111111111111111",
    "1000000000000000000000000001",
    "1011111110111111101111111101",
    "1020000010100000101000000201",
    "1011111010111110101111101101",
    "1000000010000100100000000001",
    "1110111011110101111011101111",
    "0000100000000000000000100000",
    "1110111011111111111011101111",
    "1000000010000100100000000001",
    "1011111010111110101111101101",
    "1020000010100000101000000201",
    "1011111110111111101111111101",
    "1000000000000000000000000001",
    "1111111111111111111111111111" ]

/-- The level as a 2D character array, before dot placement
(source line 114: `levelLayout.map(row => row.split(''))`). -/
def level0 : Level := levelLayout.map String.toList

/-- The source's universal movement function `move(entity)`
(source lines 339-371), parametrized by the grid it reads. -/
def move (lvl : Level) (e : Entity) : Entity :=
  let nextX := e.x + e.dir.x
  let nextY := e.y + e.dir.y
  if e.dir.x ≠ 0 ∧ nextX < 0 ∧
      0 ≤ e.y ∧ e.y < rows lvl ∧ getCell lvl e.y 0 ≠ '1' then
    { e with x := cols lvl - 1 }
  else if e.dir.x ≠ 0 ∧ cols lvl ≤ nextX ∧
      0 ≤ e.y ∧ e.y < rows lvl ∧ getCell lvl e.y (cols lvl - 1) ≠ '1' then
    { e with x := 0 }
  else if 0 ≤ nextY ∧ nextY < rows lvl ∧ 0 ≤ nextX ∧ nextX < cols lvl ∧
      getCell lvl nextY nextX ≠ '1' then
    { e with x := nextX, y := nextY }
  else
    { e with dir := ⟨0, 0⟩ }

example : move [['0', '0', '1']] ⟨0, 0, ⟨-1, 0⟩⟩ = ⟨2, 0, ⟨-1, 0⟩⟩ := by decide
example : move level0 ⟨1, 1, ⟨0, -1⟩⟩ = ⟨1, 1, ⟨0, 0⟩⟩ := by decide
example : move level0 ⟨1, 1, ⟨1, 0⟩⟩ = ⟨2, 1, ⟨1, 0⟩⟩ := by decide
example : move level0 ⟨0, 7, ⟨-1, 0⟩⟩ = ⟨27, 7, ⟨-1, 0⟩⟩ := by decide

/-! ## Flood fill and level initialization (source lines 130-174, 181-203) -/

/-- The finite set of in-bounds coordinates `(x, y)` of a grid; the measure
space for the flood-fill worklist loop. -/
def allCells (lvl : Level) : Finset (Int × Int) :=
  (Finset.range (rows lvl).toNat ×ˢ Finset.range (cols lvl).toNat).image
    (fun p => ((p.2 : Int), (p.1 : Int)))

lemma mem_allCells {lvl : Level} {x y : Int}
    (hy0 : 0 ≤ y) (hyr : y < rows lvl) (hx0 : 0 ≤ x) (hxc : x < cols lvl) :
    (x, y) ∈ allCells lvl := by
  refine Finset.mem_image.mpr ⟨(y.toNat, x.toNat), ?_, ?_⟩
  · refine Finset.mem_product.mpr ⟨?_, ?_⟩
    · exact Finset.mem_range.mpr (by omega)
    · exact Finset.mem_range.mpr (by omega)
  · simp [Int.toNat_of_nonneg hx0, Int.toNat_of_nonneg hy0]

lemma card_sdiff_insert_lt (s t : Finset (Int × Int)) (c : Int × Int)
    (hc : c ∈ s) (hct : c ∉ t) :
    (s \ insert c t).card < (s \ t).card := by
  have h1 : s \ insert c t = (s \ t).erase c := by
    ext a
    simp only [Finset.mem_sdiff, Finset.mem_insert, Finset.mem_erase]
    tauto
  rw [h1]
  exact Finset.card_erase_lt_of_mem (Finset.mem_sdiff.mpr ⟨hc, hct⟩)

/-- The worklist loop of `floodFillReachable` (source lines 134-159).
The source's `reachable` boolean grid is the set `visited`; the source's
`stack` pops from the end, so the head of the list is the most recent push.
Pushes appear here in pop order: the teleport pushes (lines 151-158) are
popped first, then `{x, y-1}`, `{x, y+1}`, `{x-1, y}`, `{x+1, y}`. -/
def floodLoop (lvl : Level) (visited : Finset (Int × Int)) :
    List (Int × Int) → Finset (Int × Int)
  | [] => visited
  | (x, y) :: rest =>
    if _h : y < 0 ∨ rows lvl ≤ y ∨ x < 0 ∨ cols lvl ≤ x ∨
        (x, y) ∈ visited ∨ getCell lvl y x = '1' then
      floodLoop lvl visited rest
    else
      floodLoop lvl (insert (x, y) visited)
        ((if canTeleportOnRow lvl y ∧ x = cols lvl - 1 then [((0 : Int), y)] else []) ++
         (if canTeleportOnRow lvl y ∧ x = 0 then [(cols lvl - 1, y)] else []) ++
         [(x, y - 1), (x, y + 1), (x - 1, y), (x + 1, y)] ++ rest)
  termination_by stack => ((allCells lvl \ visited).card, stack.length)
  decreasing_by
  · exact Prod.Lex.right _ (by simp)
  · exact Prod.Lex.left _ _
      (card_sdiff_insert_lt _ _ _
        (mem_allCells (by omega) (by omega) (by omega) (by omega)) (by tauto))

/-- `floodFillReachable(startX, startY)` (source lines 130-162), returning the
set of reached coordinates `(x, y)`. -/
def floodFillReachable (lvl : Level) (startX startY : Int) : Finset (Int × Int) :=
  floodLoop lvl ∅ [(startX, startY)]

/-- `reachableAreas = floodFillReachable(1, 1)` (source line 165),
the fill from PAC-MAN's start position. -/
def reachableAreas : Finset (Int × Int) := floodFillReachable level0 1 1

/-- The dot-placement pass (source lines 166-174): each non-wall reachable
cell becomes a dot '2', each other non-wall cell becomes empty '0', walls
stay unchanged. -/
def dotStep (reached : Finset (Int × Int)) (lvl : Level) : Level :=
  (List.range (rows lvl).toNat).map (fun y : Nat =>
    (List.range (cols lvl).toNat).map (fun x : Nat =>
      if getCell lvl (y : Int) (x : Int) ≠ '1' ∧ ((x : Int), (y : Int)) ∈ reached
      then '2'
      else if getCell lvl (y : Int) (x : Int) ≠ '1' then '0'
      else getCell lvl (y : Int) (x : Int)))

/-- The level after dot placement (source lines 164-174). -/
def dottedLevel : Level := dotStep reachableAreas level0

/-- The level at game start: dots placed, then the two entity start cells
cleared (source lines 202-203: `level[1][1] = '0'; level[13][26] = '0'`,
with `pacman = (1,1)` and `ghost = (cols-2, rows-2) = (26, 13)`). -/
def initialLevel : Level := setCell (setCell dottedLevel 1 1 '0') 13 26 '0'

/-! ## Ghost retarget policy (source lines 421-447) -/

/-- The candidate direction list of the ghost AI (source lines 423-441):
the four cardinal directions in source order `[right, left, down, up]`,
filtered to those whose target cell is in-bounds and not a wall. The filter
does not consult the teleport rules. -/
def validDirs (lvl : Level) (g : Entity) : List Dir :=
  [Dir.mk 1 0, Dir.mk (-1) 0, Dir.mk 0 1, Dir.mk 0 (-1)].filter (fun d =>
    0 ≤ g.y + d.y ∧ g.y + d.y < rows lvl ∧
    0 ≤ g.x + d.x ∧ g.x + d.x < cols lvl ∧
    getCell lvl (g.y + d.y) (g.x + d.x) ≠ '1')

/-- The source's retarget test `Math.random() < 0.1` (source line 421),
on an injected uniform sample. -/
def retargetTriggered (r1 : ℚ) : Prop := r1 < 1/10

instance (r1 : ℚ) : Decidable (retargetTriggered r1) :=
  inferInstanceAs (Decidable (r1 < 1/10))

/-- The ghost AI direction choice of one tick (source lines 421-447): with
the first sample below 0.1, pick `validDirs[Math.floor(r2 * length)]` if the
candidate list is non-empty, else keep the current direction; with the first
sample at or above 0.1, keep the current direction. The fallback value of the
list lookup is never used for samples in [0, 1). -/
def retarget (lvl : Level) (g : Entity) (r1 r2 : ℚ) : Dir :=
  if retargetTriggered r1 then
    let vd := validDirs lvl g
    if vd ≠ [] then vd.getD (⌊r2 * vd.length⌋).toNat g.dir else g.dir
  else
    g.dir

/-! ## The per-tick update (source lines 380-465) -/

/-- The number of dots on the grid, as the win-check scan
(source lines 403-408). -/
def countDots (lvl : Level) : Nat :=
  (lvl.map (fun row => (row.filter (fun c => c = '2')).length)).sum

/-- The session outcome. The source signals termination with
`alert(...); document.location.reload()` (lines 410-413 and 453-456); the
field records the most recent terminal transition taken, carrying the score
at that moment. Because `location.reload()` does not halt the running
script, a single tick can take the win transition and then also the
game-over transition; the field then ends the tick holding the later one,
with the earlier one visible in the intermediate state. Between ticks a
terminal state is absorbing (the reloaded page is a new game). -/
inductive Outcome where
  | inProgress : Outcome
  | won : Int → Outcome
  | lost : Int → Outcome
deriving DecidableEq, Repr

/-- The simulation state: the grid, the two entities, the score and the
outcome (source globals `level`, `pacman`, `ghost`, `score`). -/
structure GameState where
  lvl : Level
  pacman : Entity
  ghost : Entity
  score : Int
  outcome : Outcome
deriving DecidableEq, Repr

/-- The five sequential phases of the body of `update` (source lines
387-456), in source order: `move(pacman)` (line 387), `move(ghost)`
(line 388), dot collection and win check (lines 394-414), the ghost AI
retarget (lines 421-447), the collision check (lines 453-456). -/
inductive Phase where
  | movePlayer : Phase
  | movePursuer : Phase
  | collectPhase : Phase
  | retargetPhase : Phase
  | collidePhase : Phase
deriving DecidableEq, Repr, BEq

/-- The state transformer of one phase of the update body. Each terminal
transition is taken exactly when the source fires the corresponding alert:
the win transition on collecting the last dot (lines 410-413), and the
game-over transition whenever the post-move positions coincide (lines
453-456) — unconditionally, as in the source, where the collision check is
not guarded by the win check and `location.reload()` does not halt the
script. -/
def phaseStep (r1 r2 : ℚ) (s : GameState) : Phase → GameState
  | Phase.movePlayer => { s with pacman := move s.lvl s.pacman }
  | Phase.movePursuer => { s with ghost := move s.lvl s.ghost }
  | Phase.collectPhase =>
    if getCell s.lvl s.pacman.y s.pacman.x = '2' then
      let lvl' := setCell s.lvl s.pacman.y s.pacman.x '0'
      if countDots lvl' = 0 then
        { s with lvl := lvl', score := s.score + 10,
                 outcome := Outcome.won (s.score + 10) }
      else
        { s with lvl := lvl', score := s.score + 10 }
    else s
  | Phase.retargetPhase =>
    { s with ghost := { s.ghost with dir := retarget s.lvl s.ghost r1 r2 } }
  | Phase.collidePhase =>
    if s.pacman.x = s.ghost.x ∧ s.pacman.y = s.ghost.y then
      { s with outcome := Outcome.lost s.score }
    else s

/-- The phases of one update body, in the order they appear in the source
(lines 387, 388, 394, 421, 453). -/
def tickPhases : List Phase :=
  [Phase.movePlayer, Phase.movePursuer, Phase.collectPhase,
   Phase.retargetPhase, Phase.collidePhase]

/-- One simulation tick: the update body runs (in source phase order) while
the session is in progress; a terminal session does not advance (the source
page has reloaded). -/
def tick (r1 r2 : ℚ) (s : GameState) : GameState :=
  if s.outcome = Outcome.inProgress then
    tickPhases.foldl (phaseStep r1 r2) s
  else s

/-- The keyboard handler (source lines 472-478): an arrow key overwrites the
player's direction. -/
def applyInput (s : GameState) (d : Dir) : GameState :=
  { s with pacman := { s.pacman with dir := d } }

/-- The four direction vectors the keyboard handler can write
(source lines 474-477). -/
def arrowDirs : List Dir :=
  [Dir.mk (-1) 0, Dir.mk 1 0, Dir.mk 0 (-1), Dir.mk 0 1]

/-- The state at game start: the initialized level, PAC-MAN at (1, 1)
stationary (source lines 181-185), the ghost at (cols-2, rows-2) = (26, 13)
moving up (source lines 187-191), score 0. -/
def initState : GameState :=
  { lvl := initialLevel, pacman := ⟨1, 1, ⟨0, 0⟩⟩,
    ghost := ⟨26, 13, ⟨0, -1⟩⟩, score := 0, outcome := Outcome.inProgress }

/-- The states a play session can reach: the initial state, closed under
simulation ticks (with arbitrary random samples) and under keyboard inputs
between ticks. -/
inductive Reach : GameState → Prop where
  | init : Reach initState
  | tickStep (s : GameState) (r1 r2 : ℚ) : Reach s → Reach (tick r1 r2 s)
  | inputStep (s : GameState) (d : Dir) : Reach s → d ∈ arrowDirs →
      Reach (applyInput s d)

/-- The spec's claimed ordering for the pursuer within one tick, written from
the spec's words (§4.4 step 1 and §4.3): first choose the direction via the
retarget policy, then resolve the movement with the chosen direction. Used
only to compare against the source ordering, which moves first and
retargets afterwards. -/
def specRetargetThenMove (lvl : Level) (g : Entity) (r1 r2 : ℚ) : Entity :=
  move lvl { g with dir := retarget lvl g r1 r2 }

/-! ## Claims about the movement resolver -/

lemma cols_nonneg (lvl : Level) : 0 ≤ cols lvl := Int.natCast_nonneg _

lemma rows_nonneg (lvl : Level) : 0 ≤ rows lvl := Int.natCast_nonneg _

/-- **C2 counterexample.** The claim says a horizontal off-grid move wraps
(only) when `rowAllowsWrap` holds, i.e. both edge cells of the row are
non-wall, and otherwise stops the entity. On the one-row map `["001"]` the
row does not allow a wrap (its right edge is a wall), yet moving Left from
(0, 0) wraps to the opposite edge (2, 0) — onto the wall — instead of
stopping with direction None. -/
theorem c2_counterexample :
    ¬ canTeleportOnRow [['0', '0', '1']] 0 ∧
    move [['0', '0', '1']] ⟨0, 0, ⟨-1, 0⟩⟩ = ⟨2, 0, ⟨-1, 0⟩⟩ ∧
    move [['0', '0', '1']] ⟨0, 0, ⟨-1, 0⟩⟩ ≠ ⟨0, 0, ⟨0, 0⟩⟩ := by
  decide

/-- **C2 (amended).** For every map, position and horizontal direction whose
candidate column is outside [0, cols), the resolver wraps the entity to the
opposite horizontal edge (same row, direction unchanged) if and only if the
row index is within [0, rows) and the edge cell on the side being exited
(column 0 when moving off the left edge, column cols-1 when moving off the
right edge) is non-wall; the far edge is not consulted. When that one-sided
condition fails, the move is a stop (position unchanged, direction None). -/
theorem c2_one_sided_wrap (lvl : Level) (e : Entity) (hdx : e.dir.x ≠ 0) :
    (e.x + e.dir.x < 0 →
      ((0 ≤ e.y ∧ e.y < rows lvl ∧ getCell lvl e.y 0 ≠ '1') →
        move lvl e = { e with x := cols lvl - 1 }) ∧
      (¬ (0 ≤ e.y ∧ e.y < rows lvl ∧ getCell lvl e.y 0 ≠ '1') →
        move lvl e = { e with dir := ⟨0, 0⟩ })) ∧
    (cols lvl ≤ e.x + e.dir.x →
      ((0 ≤ e.y ∧ e.y < rows lvl ∧ getCell lvl e.y (cols lvl - 1) ≠ '1') →
        move lvl e = { e with x := 0 }) ∧
      (¬ (0 ≤ e.y ∧ e.y < rows lvl ∧ getCell lvl e.y (cols lvl - 1) ≠ '1') →
        move lvl e = { e with dir := ⟨0, 0⟩ })) := by
  have hc := cols_nonneg lvl
  constructor
  · intro hlt
    constructor
    · intro hok
      unfold move
      rw [if_pos ⟨hdx, hlt, hok⟩]
    · intro hbad
      unfold move
      rw [if_neg, if_neg, if_neg]
      · omega
      · omega
      · tauto
  · intro hge
    constructor
    · intro hok
      unfold move
      rw [if_neg, if_pos ⟨hdx, hge, hok⟩]
      omega
    · intro hbad
      unfold move
      rw [if_neg, if_neg, if_neg]
      · omega
      · tauto
      · omega

/-- **C2 (amended) witness**: on the shipped level, moving Left off row 7
(whose left edge cell is open) wraps to column 27. -/
theorem c2_one_sided_wrap_witness :
    ((Entity.mk 0 7 ⟨-1, 0⟩).dir.x ≠ 0 ∧ (0 : Int) + (-1 : Int) < 0 ∧
      (0 ≤ (7 : Int) ∧ (7 : Int) < rows level0 ∧ getCell level0 7 0 ≠ '1')) ∧
    move level0 ⟨0, 7, ⟨-1, 0⟩⟩ = { Entity.mk 0 7 ⟨-1, 0⟩ with x := cols level0 - 1 } :=
  ⟨by decide,
   ((c2_one_sided_wrap level0 ⟨0, 7, ⟨-1, 0⟩⟩ (by decide)).1 (by decide)).1 (by decide)⟩

/-- **C6.** From an in-bounds position, when the candidate cell is out of
bounds or a wall and neither horizontal-wrap branch applies, the resolver
leaves the position unchanged and forces the direction to None; and an
entity whose direction is None is a fixed point of the resolver, so the
direction stays None until a new direction is supplied from outside. -/
theorem c6_blocked_stops (lvl : Level) (e : Entity)
    (hpos : 0 ≤ e.x ∧ e.x < cols lvl ∧ 0 ≤ e.y ∧ e.y < rows lvl)
    (hcand : (¬ (0 ≤ e.y + e.dir.y ∧ e.y + e.dir.y < rows lvl ∧
                 0 ≤ e.x + e.dir.x ∧ e.x + e.dir.x < cols lvl)) ∨
             getCell lvl (e.y + e.dir.y) (e.x + e.dir.x) = '1')
    (hnowrap :
      ¬ (e.dir.x ≠ 0 ∧ e.x + e.dir.x < 0 ∧ 0 ≤ e.y ∧ e.y < rows lvl ∧
          getCell lvl e.y 0 ≠ '1') ∧
      ¬ (e.dir.x ≠ 0 ∧ cols lvl ≤ e.x + e.dir.x ∧ 0 ≤ e.y ∧ e.y < rows lvl ∧
          getCell lvl e.y (cols lvl - 1) ≠ '1')) :
    move lvl e = { e with dir := ⟨0, 0⟩ } ∧
    ∀ e2 : Entity, e2.dir = ⟨0, 0⟩ → move lvl e2 = e2 := by
  constructor
  · unfold move
    rw [if_neg hnowrap.1, if_neg hnowrap.2, if_neg]
    tauto
  · intro e2 h2
    unfold move
    rw [if_neg, if_neg]
    · by_cases h3 : 0 ≤ e2.y + e2.dir.y ∧ e2.y + e2.dir.y < rows lvl ∧
          0 ≤ e2.x + e2.dir.x ∧ e2.x + e2.dir.x < cols lvl ∧
          getCell lvl (e2.y + e2.dir.y) (e2.x + e2.dir.x) ≠ '1'
      · rw [if_pos h3]
        cases e2 with
        | mk x y d =>
          cases d with
          | mk dx dy =>
            simp only [Dir.mk.injEq] at h2
            simp [h2.1, h2.2]
      · rw [if_neg h3]
        cases e2 with
        | mk x y d => simp_all
    · rw [h2]
      simp
    · rw [h2]
      simp

/-- **C6 witness**: on the shipped level, an entity at (1, 1) moving Up is
blocked by the wall at (1, 0) and its direction is forced to None. -/
theorem c6_blocked_stops_witness :
    (getCell level0 (1 + -1) (1 + 0) = '1') ∧
    (move level0 ⟨1, 1, ⟨0, -1⟩⟩ = { Entity.mk 1 1 ⟨0, -1⟩ with dir := ⟨0, 0⟩ } ∧
     ∀ e2 : Entity, e2.dir = ⟨0, 0⟩ → move level0 e2 = e2) :=
  ⟨by decide,
   c6_blocked_stops level0 ⟨1, 1, ⟨0, -1⟩⟩ (by decide) (Or.inr (by decide)) (by decide)⟩

/-- **C7.** On every map and every row allowing a wrap, a Left move from
(0, y) lands at (cols-1, y) with direction still Left, and a Right move from
(cols-1, y) lands back at (0, y) with direction still Right: a
direction-preserving round trip. -/
theorem c7_wrap_round_trip (lvl : Level) (y : Int) (h : canTeleportOnRow lvl y) :
    move lvl ⟨0, y, ⟨-1, 0⟩⟩ = ⟨cols lvl - 1, y, ⟨-1, 0⟩⟩ ∧
    move lvl ⟨cols lvl - 1, y, ⟨1, 0⟩⟩ = ⟨0, y, ⟨1, 0⟩⟩ := by
  obtain ⟨hy0, hyr, he0, he1⟩ := h
  have hc := cols_nonneg lvl
  constructor
  · unfold move
    dsimp only
    rw [if_pos]
    exact ⟨by decide, by omega, hy0, hyr, he0⟩
  · unfold move
    dsimp only
    rw [if_neg, if_pos]
    · exact ⟨by decide, by omega, hy0, hyr, he1⟩
    · omega

/-- **C7 witness**: row 7 of the shipped level allows the wrap, and the
round trip (0,7) → (27,7) → (0,7) preserves the direction. -/
theorem c7_wrap_round_trip_witness :
    canTeleportOnRow level0 7 ∧
    (move level0 ⟨0, 7, ⟨-1, 0⟩⟩ = ⟨cols level0 - 1, 7, ⟨-1, 0⟩⟩ ∧
     move level0 ⟨cols level0 - 1, 7, ⟨1, 0⟩⟩ = ⟨0, 7, ⟨1, 0⟩⟩) :=
  ⟨by decide, c7_wrap_round_trip level0 7 (by decide)⟩

/-- **C8.** For every map, position and vertical direction whose candidate
row is outside [0, rows), the resolver never teleports: the position is
unchanged and the direction is forced to None, regardless of the tiles at
the top or bottom of the column. -/
theorem c8_no_vertical_wrap (lvl : Level) (e : Entity)
    (hvert : e.dir.x = 0 ∧ e.dir.y ≠ 0)
    (hoob : e.y + e.dir.y < 0 ∨ rows lvl ≤ e.y + e.dir.y) :
    move lvl e = { e with dir := ⟨0, 0⟩ } := by
  unfold move
  rw [if_neg, if_neg, if_neg]
  · omega
  · tauto
  · tauto

/-- **C8 witness**: on the shipped level, an entity at (1, 0) moving Up has
candidate row -1 and is stopped in place with direction None. -/
theorem c8_no_vertical_wrap_witness :
    ((Entity.mk 1 0 ⟨0, -1⟩).dir.x = 0 ∧ (Entity.mk 1 0 ⟨0, -1⟩).dir.y ≠ 0 ∧
      (0 : Int) + (-1 : Int) < 0) ∧
    move level0 ⟨1, 0, ⟨0, -1⟩⟩ = { Entity.mk 1 0 ⟨0, -1⟩ with dir := ⟨0, 0⟩ } :=
  ⟨by decide,
   c8_no_vertical_wrap level0 ⟨1, 0, ⟨0, -1⟩⟩ (by decide) (Or.inl (by decide))⟩

/-! ## Claims about the tick ordering -/

/-- **C1 counterexample.** The claim says the pursuer's movement is resolved
and applied before the player's movement on every tick. In the source update
body (lines 387-388) `move(pacman)` precedes `move(ghost)`: in the phase
list driving `tick`, the pursuer's move does not come before the player's. -/
theorem c1_counterexample :
    ¬ (tickPhases.indexOf Phase.movePursuer < tickPhases.indexOf Phase.movePlayer) := by
  decide

/-- **C1 (amended).** On every simulation tick while the session is in
progress, the player's movement is resolved and applied before the
pursuer's movement: in the phase list driving `tick`, `movePlayer` precedes
`movePursuer`, and both phases occur. -/
theorem c1_player_moves_first :
    tickPhases.indexOf Phase.movePlayer < tickPhases.indexOf Phase.movePursuer ∧
    tickPhases.indexOf Phase.movePlayer = 0 ∧
    tickPhases.indexOf Phase.movePursuer = 1 := by
  decide

/-- A five-row one-column corridor used as a concrete scenario for the
retarget-ordering claim. -/
def corridorLevel : Level :=
  [['1', '1', '1'], ['1', '0', '1'], ['1', '0', '1'], ['1', '0', '1'],
   ['1', '1', '1']]

/-- A concrete in-progress state on the corridor: the ghost at (1, 3)
moving Up, the player parked at (1, 1). -/
def corridorState : GameState :=
  { lvl := corridorLevel, pacman := ⟨1, 1, ⟨0, 0⟩⟩,
    ghost := ⟨1, 3, ⟨0, -1⟩⟩, score := 0, outcome := Outcome.inProgress }

/-- **C3 counterexample.** The claim says the retarget is invoked, and its
direction applied, before the pursuer's movement of the same tick. On the
corridor state with a triggering sample (1/20 < 0.1) and selection sample 0,
the tick leaves the ghost at (1, 2) facing Down — the move used the old
direction Up and the retarget then ran at the post-move cell — whereas
retargeting first and then moving (the spec's ordering) would leave it at
(1, 2) still facing Up. -/
theorem c3_counterexample :
    (tick (1/20) 0 corridorState).ghost = ⟨1, 2, ⟨0, 1⟩⟩ ∧
    specRetargetThenMove corridorState.lvl corridorState.ghost (1/20) 0 =
      ⟨1, 2, ⟨0, -1⟩⟩ ∧
    (tick (1/20) 0 corridorState).ghost ≠
      specRetargetThenMove corridorState.lvl corridorState.ghost (1/20) 0 := by
  have htrig : retargetTriggered ((1 : ℚ)/20) := by
    unfold retargetTriggered; norm_num
  have hfloor : ∀ n : ℕ, (⌊(0 : ℚ) * (n : ℚ)⌋).toNat = 0 := by
    intro n; simp
  have hret1 : retarget corridorLevel ⟨1, 2, ⟨0, -1⟩⟩ (1/20) 0 = ⟨0, 1⟩ := by
    unfold retarget
    rw [if_pos htrig]
    have hvd : validDirs corridorLevel ⟨1, 2, ⟨0, -1⟩⟩ =
        [⟨0, 1⟩, ⟨0, -1⟩] := by decide
    rw [hvd]
    simp only [ne_eq, reduceCtorEq, not_false_iff, if_pos, List.length_cons,
      List.length_nil, hfloor]
    rfl
  have hret2 : retarget corridorLevel ⟨1, 3, ⟨0, -1⟩⟩ (1/20) 0 = ⟨0, -1⟩ := by
    unfold retarget
    rw [if_pos htrig]
    have hvd : validDirs corridorLevel ⟨1, 3, ⟨0, -1⟩⟩ = [⟨0, -1⟩] := by decide
    rw [hvd]
    simp only [ne_eq, reduceCtorEq, not_false_iff, if_pos, List.length_cons,
      List.length_nil, hfloor]
    rfl
  have htick : (tick (1/20) 0 corridorState).ghost = ⟨1, 2, ⟨0, 1⟩⟩ := by
    unfold tick
    rw [if_pos (show corridorState.outcome = Outcome.inProgress from rfl)]
    simp only [tickPhases, List.foldl, phaseStep, corridorState]
    rw [show move corridorLevel ⟨1, 1, ⟨0, 0⟩⟩ = ⟨1, 1, ⟨0, 0⟩⟩ from by decide,
        show move corridorLevel ⟨1, 3, ⟨0, -1⟩⟩ = ⟨1, 2, ⟨0, -1⟩⟩ from by decide,
        if_neg (show ¬ getCell corridorLevel 1 1 = '2' from by decide), hret1,
        if_neg (show ¬ ((1 : Int) = 1 ∧ (1 : Int) = 2) from by decide)]
  have hspec : specRetargetThenMove corridorState.lvl corridorState.ghost
      (1/20) 0 = ⟨1, 2, ⟨0, -1⟩⟩ := by
    show specRetargetThenMove corridorLevel ⟨1, 3, ⟨0, -1⟩⟩ (1/20) 0 =
      ⟨1, 2, ⟨0, -1⟩⟩
    unfold specRetargetThenMove
    rw [hret2]
    decide
  refine ⟨htick, hspec, ?_⟩
  rw [htick, hspec]
  decide

/-- **C3 (amended).** On every in-progress tick, the pursuer's movement is
resolved first with the direction the pursuer already had, and the retarget
is invoked afterwards, at the pursuer's post-move cell (on the grid as left
by the dot collection of the tick); the chosen direction is only recorded
for subsequent ticks. -/
theorem c3_move_then_retarget (s : GameState) (r1 r2 : ℚ)
    (h : s.outcome = Outcome.inProgress) :
    (tick r1 r2 s).ghost =
      { move s.lvl s.ghost with
          dir := retarget
            (if getCell s.lvl (move s.lvl s.pacman).y (move s.lvl s.pacman).x = '2'
             then setCell s.lvl (move s.lvl s.pacman).y (move s.lvl s.pacman).x '0'
             else s.lvl)
            (move s.lvl s.ghost) r1 r2 } := by
  unfold tick
  rw [if_pos h]
  simp only [tickPhases, List.foldl, phaseStep]
  split_ifs <;> rfl

/-- **C3 (amended) witness**: the amended ordering evaluated on the corridor
state. -/
theorem c3_move_then_retarget_witness :
    corridorState.outcome = Outcome.inProgress ∧
    (tick (1/20) 0 corridorState).ghost =
      { move corridorState.lvl corridorState.ghost with
          dir := retarget
            (if getCell corridorState.lvl
                  (move corridorState.lvl corridorState.pacman).y
                  (move corridorState.lvl corridorState.pacman).x = '2'
             then setCell corridorState.lvl
                  (move corridorState.lvl corridorState.pacman).y
                  (move corridorState.lvl corridorState.pacman).x '0'
             else corridorState.lvl)
            (move corridorState.lvl corridorState.ghost) (1/20) 0 } :=
  ⟨rfl, c3_move_then_retarget corridorState (1/20) 0 rfl⟩

/-! ## Claim about the retarget policy (C9) -/

/-- **C9.** The ghost policy retargets exactly when the injected sample is
strictly below 0.1: a sample of 1/20 (= 0.05) triggers and a sample of
1/2 (= 0.5) does not. When it does not trigger, or when the candidate list
(the cardinal directions whose target cell is in-bounds and not a wall; the
filter never consults the teleport rules) is empty, the current direction is
retained. When it triggers on a non-empty candidate list, the result is the
candidate at index `floor(r2 * length)`, which lies in the list, and for
each index i the candidate at i is chosen exactly on the sample interval
[i/length, (i+1)/length) — the uniform partition of [0, 1). -/
theorem c9_retarget_boundary (lvl : Level) (g : Entity) (r1 r2 : ℚ)
    (hr2 : 0 ≤ r2 ∧ r2 < 1) :
    retargetTriggered (1/20) ∧
    ¬ retargetTriggered (1/2) ∧
    (¬ retargetTriggered r1 → retarget lvl g r1 r2 = g.dir) ∧
    (validDirs lvl g = [] → retarget lvl g r1 r2 = g.dir) ∧
    (retargetTriggered r1 → validDirs lvl g ≠ [] →
      (retarget lvl g r1 r2 =
        (validDirs lvl g).getD (⌊r2 * (validDirs lvl g).length⌋).toNat g.dir ∧
       retarget lvl g r1 r2 ∈ validDirs lvl g ∧
       ∀ i : ℕ, i < (validDirs lvl g).length →
         (i : ℚ) ≤ r2 * (validDirs lvl g).length →
         r2 * (validDirs lvl g).length < (i : ℚ) + 1 →
         retarget lvl g r1 r2 = (validDirs lvl g).getD i g.dir)) := by
  obtain ⟨hr20, hr21⟩ := hr2
  refine ⟨by unfold retargetTriggered; norm_num,
          by unfold retargetTriggered; norm_num, ?_, ?_, ?_⟩
  · intro hno
    unfold retarget
    rw [if_neg hno]
  · intro hempty
    unfold retarget
    split_ifs
    · rw [hempty]
      simp
    · rfl
  · intro htrig hne
    have hlenpos : 0 < (validDirs lvl g).length := List.length_pos.mpr hne
    have hlenQ : (0 : ℚ) < ((validDirs lvl g).length : ℚ) := by
      exact_mod_cast hlenpos
    have hfl0 : 0 ≤ ⌊r2 * ((validDirs lvl g).length : ℚ)⌋ :=
      Int.floor_nonneg.mpr (mul_nonneg hr20 (le_of_lt hlenQ))
    have hflub : ⌊r2 * ((validDirs lvl g).length : ℚ)⌋ <
        ((validDirs lvl g).length : ℤ) := by
      rw [Int.floor_lt]
      push_cast
      calc r2 * ((validDirs lvl g).length : ℚ)
          < 1 * ((validDirs lvl g).length : ℚ) := by
            exact mul_lt_mul_of_pos_right hr21 hlenQ
        _ = ((validDirs lvl g).length : ℚ) := one_mul _
    have hidx : (⌊r2 * ((validDirs lvl g).length : ℚ)⌋).toNat <
        (validDirs lvl g).length := by omega
    have heq : retarget lvl g r1 r2 =
        (validDirs lvl g).getD (⌊r2 * (validDirs lvl g).length⌋).toNat g.dir := by
      unfold retarget
      rw [if_pos htrig]
      simp only [hne, ne_eq, not_false_iff, if_pos]
    refine ⟨heq, ?_, ?_⟩
    · rw [heq, List.getD_eq_getElem _ _ hidx]
      exact List.getElem_mem _
    · intro i hi hlow hhigh
      have hfi : ⌊r2 * ((validDirs lvl g).length : ℚ)⌋ = (i : ℤ) := by
        have h1 : ((i : ℤ) : ℚ) ≤ r2 * ((validDirs lvl g).length : ℚ) := by
          exact_mod_cast hlow
        have h2 : r2 * ((validDirs lvl g).length : ℚ) < (i : ℤ) + 1 := by
          exact_mod_cast hhigh
        exact Int.floor_eq_iff.mpr ⟨h1, h2⟩
      rw [heq, hfi]
      simp

/-- **C9 witness**: on the two-cell open map with the ghost at (0, 0), the
sample pair (1/20, 0) triggers a retarget and selects the single candidate
direction Right. -/
theorem c9_retarget_boundary_witness :
    (0 ≤ (0 : ℚ) ∧ (0 : ℚ) < 1) ∧
    (retargetTriggered (1/20) ∧
     ¬ retargetTriggered (1/2) ∧
     (¬ retargetTriggered (1/20) →
        retarget [['0', '0']] ⟨0, 0, ⟨0, 0⟩⟩ (1/20) 0 = (Entity.mk 0 0 ⟨0, 0⟩).dir) ∧
     (validDirs [['0', '0']] ⟨0, 0, ⟨0, 0⟩⟩ = [] →
        retarget [['0', '0']] ⟨0, 0, ⟨0, 0⟩⟩ (1/20) 0 = (Entity.mk 0 0 ⟨0, 0⟩).dir) ∧
     (retargetTriggered (1/20) → validDirs [['0', '0']] ⟨0, 0, ⟨0, 0⟩⟩ ≠ [] →
       (retarget [['0', '0']] ⟨0, 0, ⟨0, 0⟩⟩ (1/20) 0 =
          (validDirs [['0', '0']] ⟨0, 0, ⟨0, 0⟩⟩).getD
            (⌊(0 : ℚ) * (validDirs [['0', '0']] ⟨0, 0, ⟨0, 0⟩⟩).length⌋).toNat
            (Entity.mk 0 0 ⟨0, 0⟩).dir ∧
        retarget [['0', '0']] ⟨0, 0, ⟨0, 0⟩⟩ (1/20) 0 ∈
          validDirs [['0', '0']] ⟨0, 0, ⟨0, 0⟩⟩ ∧
        ∀ i : ℕ, i < (validDirs [['0', '0']] ⟨0, 0, ⟨0, 0⟩⟩).length →
          (i : ℚ) ≤ (0 : ℚ) * (validDirs [['0', '0']] ⟨0, 0, ⟨0, 0⟩⟩).length →
          (0 : ℚ) * (validDirs [['0', '0']] ⟨0, 0, ⟨0, 0⟩⟩).length < (i : ℚ) + 1 →
          retarget [['0', '0']] ⟨0, 0, ⟨0, 0⟩⟩ (1/20) 0 =
            (validDirs [['0', '0']] ⟨0, 0, ⟨0, 0⟩⟩).getD i
              (Entity.mk 0 0 ⟨0, 0⟩).dir))) :=
  ⟨by norm_num, c9_retarget_boundary [['0', '0']] ⟨0, 0, ⟨0, 0⟩⟩ (1/20) 0 (by norm_num)⟩

/-! ## Claim about the win/lose ordering (C5) -/

/-- A two-cell map with a single dot; the player steps onto the last dot on
the same tick on which the ghost occupies that very cell. -/
def lastDotState : GameState :=
  { lvl := [['0', '2']], pacman := ⟨0, 0, ⟨1, 0⟩⟩,
    ghost := ⟨1, 0, ⟨0, 0⟩⟩, score := 0, outcome := Outcome.inProgress }

/-- **C5.** The claim says a simultaneous collect-last-dot-and-collide tick
resolves as a win, never a loss, because the win check runs first. The win
check does run first: on the last-dot-and-collide state, the state after the
collection phase of the tick records Won with the awarded score. But the
source then also executes the Game Over path on the same tick (the
collision check at lines 453-456 is not guarded by the win check, and
`location.reload()` does not halt the script), so the Lost transition is
also taken and the tick ends with outcome Lost 10, not Won 10 - against the
claim that the Lost transition is taken only on ticks where no win was
triggered. -/
theorem c5_win_then_loss_same_tick :
    (phaseStep (1/2) (1/2) (phaseStep (1/2) (1/2) (phaseStep (1/2) (1/2)
        lastDotState Phase.movePlayer) Phase.movePursuer)
        Phase.collectPhase).outcome = Outcome.won 10 ∧
    (tick (1/2) (1/2) lastDotState).outcome = Outcome.lost 10 ∧
    (tick (1/2) (1/2) lastDotState).outcome ≠ Outcome.won 10 := by
  have hret : retarget [['0', '0']] ⟨1, 0, ⟨0, 0⟩⟩ (1/2) (1/2) = ⟨0, 0⟩ := by
    unfold retarget
    rw [if_neg (show ¬ retargetTriggered (1/2) from by
      unfold retargetTriggered; norm_num)]
  have htick : (tick (1/2) (1/2) lastDotState).outcome = Outcome.lost 10 := by
    unfold tick
    rw [if_pos (show lastDotState.outcome = Outcome.inProgress from rfl)]
    simp only [tickPhases, List.foldl, phaseStep, lastDotState]
    rw [show move [['0', '2']] ⟨0, 0, ⟨1, 0⟩⟩ = ⟨1, 0, ⟨1, 0⟩⟩ from by decide,
        show move [['0', '2']] ⟨1, 0, ⟨0, 0⟩⟩ = ⟨1, 0, ⟨0, 0⟩⟩ from by decide,
        if_pos (show getCell [['0', '2']] 0 1 = '2' from by decide),
        show setCell [['0', '2']] 0 1 '0' = [['0', '0']] from by decide,
        if_pos (show countDots [['0', '0']] = 0 from by decide), hret]
    decide
  exact ⟨by decide, htick, by rw [htick]; decide⟩

/-! ## Cell access lemmas -/

lemma listGetD_set_eq {α : Type} (l : List α) (n : Nat) (a d : α)
    (h : n < l.length) : (l.set n a).getD n d = a := by
  simp [List.getD, List.getElem?_set_self, h]

lemma listGetD_set_ne {α : Type} (l : List α) (n m : Nat) (a d : α)
    (h : n ≠ m) : (l.set n a).getD m d = l.getD m d := by
  simp [List.getD, List.getElem?_set_ne h]

lemma getCell_setCell_ne (lvl : Level) (y x y2 x2 : Int) (c : Char)
    (h : y2.toNat ≠ y.toNat ∨ x2.toNat ≠ x.toNat) :
    getCell (setCell lvl y x c) y2 x2 = getCell lvl y2 x2 := by
  unfold getCell setCell
  by_cases hy : y2.toNat = y.toNat
  · have hx : x2.toNat ≠ x.toNat := by tauto
    rw [hy]
    by_cases hlen : y.toNat < lvl.length
    · rw [listGetD_set_eq _ _ _ _ hlen, listGetD_set_ne _ _ _ _ _ (Ne.symm hx)]
    · rw [List.set_eq_of_length_le (by omega)]
  · rw [listGetD_set_ne _ _ _ _ _ (Ne.symm hy)]

lemma getCell_setCell_eq (lvl : Level) (y x : Int) (c : Char)
    (hy : y.toNat < lvl.length) (hx : x.toNat < (lvl.getD y.toNat []).length) :
    getCell (setCell lvl y x c) y x = c := by
  unfold getCell setCell
  rw [listGetD_set_eq _ _ _ _ hy, listGetD_set_eq _ _ _ _ hx]

lemma getCell_dotStep (reached : Finset (Int × Int)) (lvl : Level) (y x : Int)
    (hy0 : 0 ≤ y) (hyr : y < rows lvl) (hx0 : 0 ≤ x) (hxc : x < cols lvl) :
    getCell (dotStep reached lvl) y x =
      if getCell lvl y x ≠ '1' ∧ (x, y) ∈ reached then '2'
      else if getCell lvl y x ≠ '1' then '0'
      else getCell lvl y x := by
  have hyN : y.toNat < (rows lvl).toNat := by omega
  have hxN : x.toNat < (cols lvl).toNat := by omega
  conv_lhs => unfold getCell dotStep
  simp only [List.getD, List.get?_eq_getElem?, List.getElem?_map,
    List.getElem?_range hyN, List.getElem?_range hxN, Option.map_some',
    Option.getD_some, Int.toNat_of_nonneg hy0, Int.toNat_of_nonneg hx0]

lemma dottedLevel_length : dottedLevel.length = 15 := by
  unfold dottedLevel dotStep
  rw [List.length_map, List.length_range]
  decide

lemma dottedLevel_row_length (i : Nat) (hi : i < 15) :
    (dottedLevel.getD i []).length = 28 := by
  unfold dottedLevel dotStep
  have h15 : i < (rows level0).toNat := by
    have : (rows level0).toNat = 15 := by decide
    omega
  simp only [List.getD, List.get?_eq_getElem?, List.getElem?_map,
    List.getElem?_range h15, Option.map_some', Option.getD_some]
  rw [List.length_map, List.length_range]
  decide

/-! ## Claim about level initialization (C4) -/

lemma rows_level0 : rows level0 = 15 := by decide

lemma cols_level0 : cols level0 = 28 := by decide

lemma level0_start1 : getCell level0 1 1 = '0' := by decide

lemma level0_start2 : getCell level0 13 26 = '0' := by decide

lemma initialLevel_start1 : getCell initialLevel 1 1 = '0' := by
  unfold initialLevel
  rw [getCell_setCell_ne _ 13 26 1 1 _ (Or.inl (by decide))]
  exact getCell_setCell_eq _ 1 1 _
    (by rw [dottedLevel_length]; decide)
    (by
      have h := dottedLevel_row_length 1 (by decide)
      simp only [Int.toNat_one]
      omega)

lemma initialLevel_start2 : getCell initialLevel 13 26 = '0' := by
  unfold initialLevel
  have hrow : ((setCell dottedLevel 1 1 '0').getD (13 : Int).toNat []) =
      dottedLevel.getD 13 [] := by
    unfold setCell
    exact listGetD_set_ne _ _ _ _ _ (by decide)
  refine getCell_setCell_eq _ 13 26 _ ?_ ?_
  · unfold setCell
    rw [List.length_set, dottedLevel_length]
    decide
  · rw [hrow]
    have h := dottedLevel_row_length 13 (by decide)
    omega

/-- The cell of the initialized level at any in-bounds non-start coordinate
is the dot-placement classification of that cell. -/
lemma initialLevel_non_start (y x : Int) (hy0 : 0 ≤ y) (hyr : y < 15)
    (hx0 : 0 ≤ x) (hxc : x < 28)
    (hns : ¬ ((x = 1 ∧ y = 1) ∨ (x = 26 ∧ y = 13))) :
    getCell initialLevel y x =
      if getCell level0 y x ≠ '1' ∧ (x, y) ∈ reachableAreas then '2'
      else if getCell level0 y x ≠ '1' then '0'
      else getCell level0 y x := by
  unfold initialLevel
  rw [getCell_setCell_ne _ 13 26 y x _ (by omega),
      getCell_setCell_ne _ 1 1 y x _ (by omega)]
  show getCell (dotStep reachableAreas level0) y x = _
  rw [getCell_dotStep reachableAreas level0 y x hy0
    (by rw [rows_level0]; exact hyr) hx0 (by rw [cols_level0]; exact hxc)]

/-- **C4.** After initialization of the shipped level, an in-bounds tile
holds a dot iff it is a non-wall cell reached by the flood fill from the
player's start cell and is not one of the two entity start tiles; every
non-wall tile not reached is empty; the two start tiles are empty; and
every wall tile remains a wall. -/
theorem c4_flood_fill_classification (y x : Int) (hy0 : 0 ≤ y) (hyr : y < 15)
    (hx0 : 0 ≤ x) (hxc : x < 28) :
    (getCell initialLevel y x = '2' ↔
      (getCell level0 y x ≠ '1' ∧ (x, y) ∈ reachableAreas ∧
       ¬ ((x = 1 ∧ y = 1) ∨ (x = 26 ∧ y = 13)))) ∧
    (getCell level0 y x ≠ '1' ∧ (x, y) ∉ reachableAreas →
      getCell initialLevel y x = '0') ∧
    (getCell initialLevel 1 1 = '0' ∧ getCell initialLevel 13 26 = '0') ∧
    (getCell level0 y x = '1' → getCell initialLevel y x = '1') := by
  refine ⟨?_, ?_, ⟨initialLevel_start1, initialLevel_start2⟩, ?_⟩
  · by_cases hns : (x = 1 ∧ y = 1) ∨ (x = 26 ∧ y = 13)
    · constructor
      · intro h2
        exfalso
        rcases hns with ⟨hx1, hy1⟩ | ⟨hx1, hy1⟩ <;> subst hx1 <;> subst hy1
        · rw [initialLevel_start1] at h2
          exact absurd h2 (by decide)
        · rw [initialLevel_start2] at h2
          exact absurd h2 (by decide)
      · rintro ⟨-, -, hno⟩
        exact absurd hns hno
    · rw [initialLevel_non_start y x hy0 hyr hx0 hxc hns]
      split_ifs with h1 h2
      · simp [h1.1, h1.2, hns]
      · constructor
        · intro h
          exact absurd h (by decide)
        · rintro ⟨hw, hm, -⟩
          exact absurd ⟨hw, hm⟩ h1
      · rw [not_ne_iff.mp h2]
        constructor
        · intro h
          exact absurd h (by decide)
        · rintro ⟨hw, -, -⟩
          exact absurd rfl hw
  · rintro ⟨hw, hm⟩
    by_cases hns : (x = 1 ∧ y = 1) ∨ (x = 26 ∧ y = 13)
    · rcases hns with ⟨hx1, hy1⟩ | ⟨hx1, hy1⟩ <;> subst hx1 <;> subst hy1
      · exact initialLevel_start1
      · exact initialLevel_start2
    · rw [initialLevel_non_start y x hy0 hyr hx0 hxc hns]
      rw [if_neg (by tauto), if_pos hw]
  · intro hw
    by_cases hns : (x = 1 ∧ y = 1) ∨ (x = 26 ∧ y = 13)
    · exfalso
      rcases hns with ⟨hx1, hy1⟩ | ⟨hx1, hy1⟩ <;> subst hx1 <;> subst hy1
      · rw [level0_start1] at hw
        exact absurd hw (by decide)
      · rw [level0_start2] at hw
        exact absurd hw (by decide)
    · rw [initialLevel_non_start y x hy0 hyr hx0 hxc hns]
      rw [if_neg (by tauto), if_neg (by tauto)]
      exact hw

/-- **C4 witness**: the classification instantiated at the in-bounds cell
(y, x) = (1, 2). -/
theorem c4_flood_fill_classification_witness :
    (0 ≤ (1 : Int) ∧ (1 : Int) < 15 ∧ 0 ≤ (2 : Int) ∧ (2 : Int) < 28) ∧
    ((getCell initialLevel 1 2 = '2' ↔
      (getCell level0 1 2 ≠ '1' ∧ ((2 : Int), (1 : Int)) ∈ reachableAreas ∧
       ¬ (((2 : Int) = 1 ∧ (1 : Int) = 1) ∨ ((2 : Int) = 26 ∧ (1 : Int) = 13)))) ∧
     (getCell level0 1 2 ≠ '1' ∧ ((2 : Int), (1 : Int)) ∉ reachableAreas →
      getCell initialLevel 1 2 = '0') ∧
     (getCell initialLevel 1 1 = '0' ∧ getCell initialLevel 13 26 = '0') ∧
     (getCell level0 1 2 = '1' → getCell initialLevel 1 2 = '1')) :=
  ⟨by decide,
   c4_flood_fill_classification 1 2 (by decide) (by decide) (by decide) (by decide)⟩

/-! ## Claim about the play-session invariant (C10) -/

/-- The grid has the shipped dimensions: 15 rows, each of length 28. -/
def goodDims (lvl : Level) : Prop :=
  lvl.length = 15 ∧ ∀ i : Nat, i < 15 → (lvl.getD i []).length = 28

/-- The grid has exactly the wall cells of the shipped template (dot
collection only ever rewrites '2' to '0', never touching walls). -/
def wallsLike (lvl : Level) : Prop :=
  ∀ y x : Int, 0 ≤ y → y < 15 → 0 ≤ x → x < 28 →
    (getCell lvl y x = '1' ↔ getCell level0 y x = '1')

/-- An entity is at an in-bounds non-wall cell of the shipped template. -/
def safeEnt (e : Entity) : Prop :=
  0 ≤ e.x ∧ e.x < 28 ∧ 0 ≤ e.y ∧ e.y < 15 ∧ getCell level0 e.y e.x ≠ '1'

/-- The session invariant: shipped dimensions, shipped walls, both entities
in-bounds and off the walls. -/
def SessionInv (s : GameState) : Prop :=
  goodDims s.lvl ∧ wallsLike s.lvl ∧ safeEnt s.pacman ∧ safeEnt s.ghost

lemma rows_of_goodDims {lvl : Level} (hd : goodDims lvl) : rows lvl = 15 := by
  unfold rows
  rw [hd.1]
  rfl

lemma cols_of_goodDims {lvl : Level} (hd : goodDims lvl) : cols lvl = 28 := by
  obtain ⟨hlen, hrow⟩ := hd
  cases lvl with
  | nil => simp at hlen
  | cons a t =>
    have h2 : a.length = 28 := hrow 0 (by omega)
    unfold cols
    simp [h2]

/-- In the shipped template, a row's left edge cell is open exactly when its
right edge cell is (row 7 is the only wrap row). -/
lemma level0_edge_pairs :
    ∀ n : Nat, n < 15 →
      (getCell level0 (n : Int) 0 = '1' ↔ getCell level0 (n : Int) 27 = '1') := by
  decide

lemma level0_edge (y : Int) (hy0 : 0 ≤ y) (hyr : y < 15) :
    (getCell level0 y 0 = '1' ↔ getCell level0 y 27 = '1') := by
  have h := level0_edge_pairs y.toNat (by omega)
  rwa [Int.toNat_of_nonneg hy0] at h

/-- The movement resolver keeps an entity in-bounds and off the walls on any
grid with the shipped dimensions and walls, whatever its direction. -/
lemma move_safe (lvl : Level) (e : Entity) (hd : goodDims lvl)
    (hw : wallsLike lvl) (he : safeEnt e) : safeEnt (move lvl e) := by
  have hrows : rows lvl = 15 := rows_of_goodDims hd
  have hcols : cols lvl = 28 := cols_of_goodDims hd
  obtain ⟨hex0, hexc, hey0, heyr, henw⟩ := he
  unfold move
  dsimp only
  split_ifs with h1 h2 h3
  · obtain ⟨-, -, hy0, hyr, hedge⟩ := h1
    have h0 : getCell level0 e.y 0 ≠ '1' := by
      intro hc
      exact hedge ((hw e.y 0 (by omega) (by omega) (by omega) (by omega)).mpr hc)
    have h27 : cols lvl - 1 = 27 := by omega
    unfold safeEnt
    dsimp only
    rw [h27]
    exact ⟨by omega, by omega, hey0, heyr,
      fun hc => h0 ((level0_edge e.y hey0 heyr).mpr hc)⟩
  · obtain ⟨-, -, hy0, hyr, hedge⟩ := h2
    have h27 : cols lvl - 1 = 27 := by omega
    rw [h27] at hedge
    have h0 : getCell level0 e.y 27 ≠ '1' := by
      intro hc
      exact hedge ((hw e.y 27 (by omega) (by omega) (by omega) (by omega)).mpr hc)
    unfold safeEnt
    dsimp only
    exact ⟨by omega, by omega, hey0, heyr,
      fun hc => h0 ((level0_edge e.y hey0 heyr).mp hc)⟩
  · obtain ⟨hny0, hnyr, hnx0, hnxc, hnw⟩ := h3
    unfold safeEnt
    dsimp only
    refine ⟨hnx0, by omega, hny0, by omega, ?_⟩
    intro hc
    exact hnw ((hw _ _ hny0 (by omega) hnx0 (by omega)).mpr hc)
  · exact ⟨hex0, hexc, hey0, heyr, henw⟩

lemma setCell_goodDims (lvl : Level) (y x : Int) (c : Char)
    (hd : goodDims lvl) : goodDims (setCell lvl y x c) := by
  constructor
  · unfold setCell
    rw [List.length_set]
    exact hd.1
  · intro i hi
    unfold setCell
    by_cases hy : y.toNat = i
    · subst hy
      by_cases hlen : y.toNat < lvl.length
      · rw [listGetD_set_eq _ _ _ _ hlen, List.length_set]
        exact hd.2 _ hi
      · rw [List.set_eq_of_length_le (by omega)]
        exact hd.2 _ hi
    · rw [listGetD_set_ne _ _ _ _ _ hy]
      exact hd.2 _ hi

lemma setCell_wallsLike (lvl : Level) (py px : Int) (hd : goodDims lvl)
    (hw : wallsLike lvl) (hpy0 : 0 ≤ py) (hpyr : py < 15)
    (hpx0 : 0 ≤ px) (hpxc : px < 28)
    (hold : getCell lvl py px ≠ '1') :
    wallsLike (setCell lvl py px '0') := by
  intro y x hy0 hyr hx0 hxc
  by_cases hsame : y.toNat = py.toNat ∧ x.toNat = px.toNat
  · have hyy : y = py := by omega
    have hxx : x = px := by omega
    subst hyy
    subst hxx
    rw [getCell_setCell_eq _ _ _ _ (by have := hd.1; omega)
      (by have := hd.2 y.toNat (by have := hd.1; omega); omega)]
    constructor
    · intro hc
      exact absurd hc (by decide)
    · intro hc
      exact absurd ((hw y x hy0 hyr hx0 hxc).mpr hc) hold
  · rw [getCell_setCell_ne _ _ _ _ _ _ (by tauto)]
    exact hw y x hy0 hyr hx0 hxc

lemma phaseStep_inv (r1 r2 : ℚ) (s : GameState) (p : Phase) (h : SessionInv s) :
    SessionInv (phaseStep r1 r2 s p) := by
  obtain ⟨hd, hw, hp, hg⟩ := h
  cases p with
  | movePlayer => exact ⟨hd, hw, move_safe _ _ hd hw hp, hg⟩
  | movePursuer => exact ⟨hd, hw, hp, move_safe _ _ hd hw hg⟩
  | collectPhase =>
    dsimp only [phaseStep]
    split_ifs with hdot hzero
    · exact ⟨setCell_goodDims _ _ _ _ hd,
        setCell_wallsLike _ _ _ hd hw hp.2.2.1 hp.2.2.2.1 hp.1 hp.2.1
          (by rw [hdot]; decide), hp, hg⟩
    · exact ⟨setCell_goodDims _ _ _ _ hd,
        setCell_wallsLike _ _ _ hd hw hp.2.2.1 hp.2.2.2.1 hp.1 hp.2.1
          (by rw [hdot]; decide), hp, hg⟩
    · exact ⟨hd, hw, hp, hg⟩
  | retargetPhase => exact ⟨hd, hw, hp, hg⟩
  | collidePhase =>
    dsimp only [phaseStep]
    split_ifs
    · exact ⟨hd, hw, hp, hg⟩
    · exact ⟨hd, hw, hp, hg⟩

lemma tick_inv (r1 r2 : ℚ) (s : GameState) (h : SessionInv s) : SessionInv (tick r1 r2 s) := by
  unfold tick
  split_ifs
  · simp only [tickPhases, List.foldl]
    exact phaseStep_inv _ _ _ _ (phaseStep_inv _ _ _ _ (phaseStep_inv _ _ _ _
      (phaseStep_inv _ _ _ _ (phaseStep_inv _ _ _ _ h))))
  · exact h

lemma initialLevel_goodDims : goodDims initialLevel :=
  setCell_goodDims _ _ _ _ (setCell_goodDims _ _ _ _
    ⟨dottedLevel_length, dottedLevel_row_length⟩)

lemma initialLevel_wallsLike : wallsLike initialLevel := by
  intro y x hy0 hyr hx0 hxc
  by_cases hns : (x = 1 ∧ y = 1) ∨ (x = 26 ∧ y = 13)
  · rcases hns with ⟨hx1, hy1⟩ | ⟨hx1, hy1⟩ <;> subst hx1 <;> subst hy1
    · rw [initialLevel_start1, level0_start1]
    · rw [initialLevel_start2, level0_start2]
  · rw [initialLevel_non_start y x hy0 hyr hx0 hxc hns]
    split_ifs with h1 h2
    · constructor
      · intro hc
        exact absurd hc (by decide)
      · intro hc
        exact absurd hc h1.1
    · constructor
      · intro hc
        exact absurd hc (by decide)
      · intro hc
        exact absurd hc h2
    · exact Iff.rfl

lemma initState_inv : SessionInv initState :=
  ⟨initialLevel_goodDims, initialLevel_wallsLike,
   by unfold safeEnt; decide, by unfold safeEnt; decide⟩

lemma reach_inv (s : GameState) (h : Reach s) : SessionInv s := by
  induction h with
  | init => exact initState_inv
  | tickStep s r1 r2 _ ih => exact tick_inv r1 r2 s ih
  | inputStep s d _ _ ih => exact ⟨ih.1, ih.2.1, ih.2.2.1, ih.2.2.2⟩

/-- **C10 counterexample.** The claim describes the shipped level as 15×29;
the shipped template is 15 rows of 28 columns. -/
theorem c10_counterexample :
    rows level0 = 15 ∧ cols level0 = 28 ∧ cols level0 ≠ 29 := by
  decide

/-- **C10 (amended).** Invariant of the shipped 15×28 level: from the
initial state (player at (1, 1) with direction None, pursuer at
(cols-2, rows-2) = (26, 13)), after any sequence of ticks, random draws and
direction inputs, both entities' positions remain in-bounds (x in [0, cols),
y in [0, rows)) and never lie on a wall tile of the current grid. -/
theorem c10_entities_stay_safe (s : GameState) (h : Reach s) :
    (0 ≤ s.pacman.x ∧ s.pacman.x < cols s.lvl ∧
     0 ≤ s.pacman.y ∧ s.pacman.y < rows s.lvl ∧
     getCell s.lvl s.pacman.y s.pacman.x ≠ '1') ∧
    (0 ≤ s.ghost.x ∧ s.ghost.x < cols s.lvl ∧
     0 ≤ s.ghost.y ∧ s.ghost.y < rows s.lvl ∧
     getCell s.lvl s.ghost.y s.ghost.x ≠ '1') := by
  obtain ⟨hd, hw, hp, hg⟩ := reach_inv s h
  have hrows : rows s.lvl = 15 := rows_of_goodDims hd
  have hcols : cols s.lvl = 28 := cols_of_goodDims hd
  obtain ⟨hp1, hp2, hp3, hp4, hp5⟩ :
      0 ≤ s.pacman.x ∧ s.pacman.x < 28 ∧ 0 ≤ s.pacman.y ∧ s.pacman.y < 15 ∧
      getCell level0 s.pacman.y s.pacman.x ≠ '1' := hp
  obtain ⟨hg1, hg2, hg3, hg4, hg5⟩ :
      0 ≤ s.ghost.x ∧ s.ghost.x < 28 ∧ 0 ≤ s.ghost.y ∧ s.ghost.y < 15 ∧
      getCell level0 s.ghost.y s.ghost.x ≠ '1' := hg
  constructor
  · refine ⟨hp1, by omega, hp3, by omega, ?_⟩
    intro hc
    exact hp5 ((hw s.pacman.y s.pacman.x hp3 hp4 hp1 hp2).mp hc)
  · refine ⟨hg1, by omega, hg3, by omega, ?_⟩
    intro hc
    exact hg5 ((hw s.ghost.y s.ghost.x hg3 hg4 hg1 hg2).mp hc)

/-- **C10 (amended) witness**: the invariant holds at the initial state. -/
theorem c10_entities_stay_safe_witness :
    (0 ≤ initState.pacman.x ∧ initState.pacman.x < cols initState.lvl ∧
     0 ≤ initState.pacman.y ∧ initState.pacman.y < rows initState.lvl ∧
     getCell initState.lvl initState.pacman.y initState.pacman.x ≠ '1') ∧
    (0 ≤ initState.ghost.x ∧ initState.ghost.x < cols initState.lvl ∧
     0 ≤ initState.ghost.y ∧ initState.ghost.y < rows initState.lvl ∧
     getCell initState.lvl initState.ghost.y initState.ghost.x ≠ '1') :=
  c10_entities_stay_safe initState Reach.init
